import Mathlib

/-!
Verification of `src/generate_duels_viz.py` (duel visualization generator).

The file shallowly embeds the data pipeline of the script:

* `fetch_player_duels` (lines 87-131): filter raw per-player rows
  (no goalkeeper, starters only, requested team only), default missing
  numeric values to zero, compute `duelTotal = duelWon + duelLost`,
  stable-sort by `(duelTotal DESC, duelWon DESC)` (pandas `sort_values`
  with a multi-column key performs a stable lexsort), convert to plain
  records and reverse.
* `fetch_team_percentages` (lines 134-182): team-level duel summary.
* `fetch_match_info` (lines 65-84): match metadata record.
* the data-dependent pieces of `create_chart` (lines 190-425): the chart
  x-axis bound `int(np.max(totals) + 1.5)`, the per-segment bar labels,
  and the legend bar widths and labels.

Numbers that are Python ints are `Nat`/`Int`; float arithmetic on values
derived from integer counts is modelled over `ℚ` (all the constants
involved, `1.5` and `6.0`, are exactly representable, and the operations
used stay within exactly representable values for the integer ranges at
hand). A pandas `NaN`-able numeric column entry is an `Option Nat`
(`none` = NaN); `fillna(0.0)` is `Option.getD 0`.
-/

/-- A raw per-player statistics row as returned by
`scrape_player_match_stats` (after duplicate-column removal, line 98):
the fields the script reads. Numeric fields may be NaN (`none`). -/
structure RawRow where
  name : String
  position : String
  substitute : Bool
  teamName : String
  minutesPlayed : Option Nat
  duelWon : Option Nat
  duelLost : Option Nat
deriving DecidableEq, Repr

/-- A row after `fillna(0.0)` (line 106) and the `duelTotal` column
assignment (line 109). -/
structure FilledRow where
  name : String
  position : String
  substitute : Bool
  teamName : String
  minutesPlayed : Nat
  duelWon : Nat
  duelLost : Nat
  duelTotal : Nat
deriving DecidableEq, Repr

/-- One output record of `fetch_player_duels` (lines 119-126). -/
structure PlayerRec where
  player : String
  minutes : Nat
  won : Nat
  lost : Nat
deriving DecidableEq, Repr

/-- The three successive row filters of lines 101-103: drop goalkeepers,
drop substitutes, keep only the requested team. -/
def filterPlayers (rows : List RawRow) (team_name : String) : List RawRow :=
  ((rows.filter (fun r => r.position != "G")).filter
      (fun r => !r.substitute)).filter
    (fun r => r.teamName == team_name)

/-- `fillna(0.0)` on the numeric columns followed by the
`duelTotal = duelWon + duelLost` column (lines 106-109). -/
def fillRow (r : RawRow) : FilledRow :=
  { name := r.name
    position := r.position
    substitute := r.substitute
    teamName := r.teamName
    minutesPlayed := r.minutesPlayed.getD 0
    duelWon := r.duelWon.getD 0
    duelLost := r.duelLost.getD 0
    duelTotal := r.duelWon.getD 0 + r.duelLost.getD 0 }

/-- Row-to-dict conversion of lines 119-126 (`int(...)` is the identity
on the already-natural values). -/
def toRec (r : FilledRow) : PlayerRec :=
  { player := r.name
    minutes := r.minutesPlayed
    won := r.duelWon
    lost := r.duelLost }

/-- The sort key of line 112-114: `a` may come (weakly) before `b` iff
`a.duelTotal > b.duelTotal`, or the totals tie and
`a.duelWon ≥ b.duelWon` (descending on both keys). -/
def duelLE (a b : FilledRow) : Prop :=
  b.duelTotal < a.duelTotal ∨ (a.duelTotal = b.duelTotal ∧ b.duelWon ≤ a.duelWon)

instance : DecidableRel duelLE := fun a b => by
  unfold duelLE; exact inferInstance

instance : IsTotal FilledRow duelLE := by
  constructor; intro a b; unfold duelLE; omega

instance : IsTrans FilledRow duelLE := by
  constructor; intro a b c hab hbc; unfold duelLE at hab hbc ⊢; omega

/-- The sorted DataFrame of lines 112-114.  Pandas `sort_values` with a
multi-column `by` performs a stable lexsort; that stable sort is embedded
as Mathlib's stable `insertionSort` under the total preorder `duelLE`. -/
def sortedPlayers (rows : List RawRow) (team_name : String) : List FilledRow :=
  List.insertionSort duelLE ((filterPlayers rows team_name).map fillRow)

/-- The record list built by the `iterrows` loop of lines 117-126, i.e.
the builder's output sequence before the final reversal of line 129. -/
def sortedRecords (rows : List RawRow) (team_name : String) : List PlayerRec :=
  (sortedPlayers rows team_name).map toRec

/-- `fetch_player_duels` (lines 87-131): the filtered, defaulted, sorted
record list, reversed (line 129). -/
def fetch_player_duels (rows : List RawRow) (team_name : String) : List PlayerRec :=
  (sortedRecords rows team_name).reverse

section StableSortLemmas

variable {α : Type} (r : α → α → Prop) [DecidableRel r] (p : α → Bool)

/-- Inserting an element satisfying `p` that is `r`-below every element
satisfying `p` puts it at the front of the `p`-filtered list. -/
theorem filter_orderedInsert_pos (a : α) (ha : p a = true)
    (h : ∀ b, p b = true → r a b) :
    ∀ l : List α, (l.orderedInsert r a).filter p = a :: l.filter p := by
  intro l
  induction l with
  | nil => simp [List.orderedInsert, ha]
  | cons b l ih =>
    by_cases hr : r a b
    · simp [List.orderedInsert, hr, ha]
    · have hb : p b = false := by
        cases hpb : p b
        · rfl
        · exact absurd (h b hpb) hr
      simp [List.orderedInsert, hr, hb, ih]

/-- Inserting an element not satisfying `p` leaves the `p`-filtered list
unchanged. -/
theorem filter_orderedInsert_neg (a : α) (ha : p a = false) :
    ∀ l : List α, (l.orderedInsert r a).filter p = l.filter p := by
  intro l
  induction l with
  | nil => simp [List.orderedInsert, ha]
  | cons b l ih =>
    by_cases hr : r a b
    · simp [List.orderedInsert, hr, ha]
    · cases hb : p b <;> simp [List.orderedInsert, hr, hb, ih]

/-- Stability of `insertionSort`: if all elements satisfying `p` are
mutually related by `r` (they are tied for the sort), sorting does not
change their relative order. -/
theorem filter_insertionSort_eq (htied : ∀ a b, p a = true → p b = true → r a b) :
    ∀ l : List α, (List.insertionSort r l).filter p = l.filter p := by
  intro l
  induction l with
  | nil => rfl
  | cons a l ih =>
    rw [List.insertionSort]
    cases hpa : p a
    · rw [filter_orderedInsert_neg r p a hpa, ih]
      simp [hpa]
    · rw [filter_orderedInsert_pos r p a hpa (fun b hb => htied a b hpa hb), ih]
      simp [hpa]

end StableSortLemmas

/-- Every row of the sorted DataFrame is a `fillRow` image, so its
`duelTotal` column equals `duelWon + duelLost`. -/
theorem sortedPlayers_total (rows : List RawRow) (team_name : String) :
    ∀ x ∈ sortedPlayers rows team_name, x.duelTotal = x.duelWon + x.duelLost := by
  intro x hx
  rw [sortedPlayers, List.mem_insertionSort duelLE] at hx
  obtain ⟨r, _, rfl⟩ := List.mem_map.1 hx
  rfl

/-- C1: before the final reversal, the builder's sequence is sorted by
total duels descending with ties broken by duels won descending
(adjacent records satisfy `total[i] ≥ total[i+1]` and, on equal totals,
`won[i] ≥ won[i+1]`), and rows tied on both sort keys keep their
source order (the sort is stable). -/
theorem fetch_player_duels_sorted_stable (rows : List RawRow) (team_name : String) :
    List.Chain'
      (fun a b : PlayerRec =>
        b.won + b.lost ≤ a.won + a.lost ∧
        (a.won + a.lost = b.won + b.lost → b.won ≤ a.won))
      (sortedRecords rows team_name) ∧
    ∀ t w : Nat,
      (sortedPlayers rows team_name).filter
          (fun r => r.duelTotal == t && r.duelWon == w) =
        ((filterPlayers rows team_name).map fillRow).filter
          (fun r => r.duelTotal == t && r.duelWon == w) := by
  constructor
  · have hs : (sortedPlayers rows team_name).Sorted duelLE :=
      List.sorted_insertionSort duelLE _
    have hmem := sortedPlayers_total rows team_name
    have hp : (sortedPlayers rows team_name).Pairwise
        (fun a b =>
          (toRec b).won + (toRec b).lost ≤ (toRec a).won + (toRec a).lost ∧
          ((toRec a).won + (toRec a).lost = (toRec b).won + (toRec b).lost →
            (toRec b).won ≤ (toRec a).won)) := by
      refine hs.imp_of_mem ?_
      intro a b ha hb hab
      have hA := hmem a ha
      have hB := hmem b hb
      unfold duelLE at hab
      simp only [toRec]
      omega
    rw [sortedRecords]
    exact (List.pairwise_map.2 hp).chain'
  · intro t w
    refine filter_insertionSort_eq duelLE _ ?_ _
    intro a b hpa hpb
    simp only [Bool.and_eq_true, beq_iff_eq] at hpa hpb
    unfold duelLE
    omega

/-- C2: the list handed to the layout engine is the exact reversal of the
sorted sequence, so its first record is the last (lowest-ranked) record
of the sorted order and its last record is the first (highest-ranked). -/
theorem fetch_player_duels_is_reversal (rows : List RawRow) (team_name : String) :
    fetch_player_duels rows team_name = (sortedRecords rows team_name).reverse ∧
    (fetch_player_duels rows team_name).head? =
      (sortedRecords rows team_name).getLast? ∧
    (fetch_player_duels rows team_name).getLast? =
      (sortedRecords rows team_name).head? := by
  refine ⟨rfl, ?_, ?_⟩
  · exact List.head?_reverse (sortedRecords rows team_name)
  · exact List.getLast?_reverse (sortedRecords rows team_name)

/-- Membership characterization of the three filters of lines 101-103. -/
theorem mem_filterPlayers (rows : List RawRow) (team_name : String)
    (r : RawRow) :
    r ∈ filterPlayers rows team_name ↔
      r ∈ rows ∧ r.position ≠ "G" ∧ r.substitute = false ∧
        r.teamName = team_name := by
  simp only [filterPlayers, List.mem_filter, bne_iff_ne, ne_eq,
    Bool.not_eq_true', beq_iff_eq]
  tauto

/-- C3: a raw row survives the builder's filter iff its position is not
goalkeeper, it is not a substitute, and its team matches the requested
team; a record appears in the builder's output iff it is the image of
such a surviving source row. -/
theorem fetch_player_duels_membership (rows : List RawRow) (team_name : String) :
    (∀ r : RawRow, r ∈ filterPlayers rows team_name ↔
      r ∈ rows ∧ r.position ≠ "G" ∧ r.substitute = false ∧
        r.teamName = team_name) ∧
    (∀ rec : PlayerRec, rec ∈ fetch_player_duels rows team_name ↔
      ∃ r : RawRow, (r ∈ rows ∧ r.position ≠ "G" ∧ r.substitute = false ∧
        r.teamName = team_name) ∧ toRec (fillRow r) = rec) := by
  have hfilter := mem_filterPlayers rows team_name
  refine ⟨hfilter, ?_⟩
  intro rec
  rw [fetch_player_duels, List.mem_reverse, sortedRecords]
  simp only [List.mem_map, sortedPlayers, List.mem_insertionSort duelLE,
    List.mem_map]
  constructor
  · rintro ⟨x, ⟨r, hr, rfl⟩, rfl⟩
    exact ⟨r, (hfilter r).1 hr, rfl⟩
  · rintro ⟨r, hr, rfl⟩
    exact ⟨fillRow r, ⟨r, (hfilter r).2 hr, rfl⟩, rfl⟩

/-! ## Chart panel: data-dependent pieces of `create_chart` -/

/-- `np.max` over a float array: raises `ValueError` on a zero-size
array, otherwise folds `max` across the elements. -/
def npMaxQ : List ℚ → Except String ℚ
  | [] => Except.error
      "zero-size array to reduction operation maximum which has no identity"
  | x :: xs => Except.ok (xs.foldl max x)

/-- `totals = won_arr + lost_arr` (line 251), as the float array of the
per-player duel totals. -/
def chartTotals (players : List PlayerRec) : List ℚ :=
  players.map (fun p => (p.won : ℚ) + (p.lost : ℚ))

/-- `xmax = int(np.max(totals) + 1.5)` (line 263).  `int()` truncates
toward zero, and the argument is at least `1.5 > 0`, so truncation is
the floor. -/
def chart_xmax (players : List PlayerRec) : Except String ℤ :=
  (npMaxQ (chartTotals players)).map (fun m => Int.floor (m + 3 / 2))

/-- The maximum duel total, as folded by `np.max` (all totals are
naturals, so the extra `0` seed is harmless). -/
def maxTotal (players : List PlayerRec) : ℕ :=
  (players.map (fun p => p.won + p.lost)).foldl max 0

/-- C4: when no raw row is eligible the builder returns the empty
sequence (no error), but `create_chart` then computes `np.max` of an
empty totals array, which raises, so the chart panel is never rendered. -/
theorem empty_dataset_builder_ok_chart_raises (rows : List RawRow)
    (team_name : String)
    (h : ∀ r ∈ rows, ¬(r.position ≠ "G" ∧ r.substitute = false ∧
      r.teamName = team_name)) :
    fetch_player_duels rows team_name = [] ∧
    chart_xmax (fetch_player_duels rows team_name) = Except.error
      "zero-size array to reduction operation maximum which has no identity" := by
  have hf : filterPlayers rows team_name = [] := by
    rw [List.eq_nil_iff_forall_not_mem]
    intro r hr
    rw [mem_filterPlayers] at hr
    exact h r hr.1 hr.2
  have hempty : fetch_player_duels rows team_name = [] := by
    rw [fetch_player_duels, sortedRecords, sortedPlayers, hf]
    rfl
  exact ⟨hempty, by rw [hempty]; rfl⟩

theorem empty_dataset_builder_ok_chart_raises_witness :
    fetch_player_duels
        [⟨"Keeper", "G", false, "X", some 90, some 1, some 2⟩] "X" = [] ∧
    chart_xmax (fetch_player_duels
        [⟨"Keeper", "G", false, "X", some 90, some 1, some 2⟩] "X") = Except.error
      "zero-size array to reduction operation maximum which has no identity" :=
  empty_dataset_builder_ok_chart_raises _ "X" (by decide)

/-- Folding `max` over casts of naturals is the cast of the natural
fold. -/
theorem foldl_max_cast (xs : List ℕ) : ∀ x : ℕ,
    (xs.map (fun n : ℕ => (n : ℚ))).foldl max (x : ℚ) =
      ((xs.foldl max x : ℕ) : ℚ) := by
  induction xs with
  | nil => intro x; rfl
  | cons y ys ih =>
    intro x
    simp only [List.map_cons, List.foldl_cons]
    rw [← Nat.cast_max, ih]

/-- The float totals array is the cast of the natural totals. -/
theorem chartTotals_eq_cast (players : List PlayerRec) :
    chartTotals players =
      (players.map (fun p => p.won + p.lost)).map (fun n : ℕ => (n : ℚ)) := by
  rw [chartTotals, List.map_map]
  refine List.map_congr_left ?_
  intro p _
  simp only [Function.comp]
  push_cast
  rfl

/-- `⌊n + 1.5⌋ = n + 1` for a natural `n`. -/
theorem floor_nat_add_three_halves (n : ℕ) :
    Int.floor ((n : ℚ) + 3 / 2) = (n : ℤ) + 1 := by
  rw [Int.floor_eq_iff]
  constructor <;> push_cast <;> linarith

/-- C5 counterexample: with a single player having `won = 3, lost = 1`
(so `max total = 4`), the code sets the axis bound to the integer `5`,
not to `4 + 1.5 = 5.5` — the `int(...)` truncation makes the claimed
value unattainable. -/
theorem chart_xmax_counterexample :
    chart_xmax [⟨"A", 90, 3, 1⟩] = Except.ok 5 ∧
    ((5 : ℚ) ≠ (3 + 1 : ℚ) + 3 / 2) := by
  have h1 : chartTotals [⟨"A", 90, 3, 1⟩] = [(4 : ℚ)] := by
    rw [chartTotals, List.map_cons, List.map_nil]
    norm_num
  constructor
  · rw [chart_xmax, h1]
    simp only [npMaxQ, Except.map, List.foldl_nil, Except.ok.injEq]
    norm_num [Int.floor_eq_iff]
  · norm_num

/-- C5 amended: for a non-empty player sequence, the axis upper bound is
`int(max(total) + 1.5)`, i.e. `max(total) + 1` (the totals being
integers, the `1.5` padding is truncated to `1`). -/
theorem chart_xmax_eq_max_plus_one (players : List PlayerRec)
    (h : players ≠ []) :
    chart_xmax players = Except.ok ((maxTotal players : ℤ) + 1) := by
  cases players with
  | nil => exact absurd rfl h
  | cons p ps =>
    have hseed : (ps.map (fun p => p.won + p.lost)).foldl max (p.won + p.lost) =
        maxTotal (p :: ps) := by
      rw [maxTotal, List.map_cons, List.foldl_cons, Nat.max_comm, Nat.max_zero]
    rw [chart_xmax, chartTotals_eq_cast]
    simp only [List.map_cons, npMaxQ, Except.map]
    rw [foldl_max_cast, hseed, floor_nat_add_three_halves]

theorem chart_xmax_eq_max_plus_one_witness :
    ([⟨"B", 45, 2, 0⟩] : List PlayerRec) ≠ [] ∧
    chart_xmax [⟨"B", 45, 2, 0⟩] =
      Except.ok ((maxTotal [⟨"B", 45, 2, 0⟩] : ℤ) + 1) :=
  ⟨by decide, chart_xmax_eq_max_plus_one _ (by decide)⟩

/-! ## Legend panel -/

/-- `LEGEND_TOTAL_WIDTH = 6.0` (line 33). -/
def LEGEND_TOTAL_WIDTH : ℚ := 6

/-- `team_bar_width = (team_pct / 100) * LEGEND_TOTAL_WIDTH`
(line 378); the percentage is the parsed integer. -/
def team_bar_width (team_pct : ℤ) : ℚ :=
  ((team_pct : ℚ) / 100) * LEGEND_TOTAL_WIDTH

/-- `opponent_bar_width = LEGEND_TOTAL_WIDTH - team_bar_width`
(line 379). -/
def opponent_bar_width (team_pct : ℤ) : ℚ :=
  LEGEND_TOTAL_WIDTH - team_bar_width team_pct

/-- C6: the two legend segment widths always sum exactly to
`LEGEND_TOTAL_WIDTH`, and at `team_pct = 51` they are `3.06` and
`2.94`. -/
theorem legend_widths_sum (team_pct : ℤ) (h0 : 0 ≤ team_pct)
    (h1 : team_pct ≤ 100) :
    team_bar_width team_pct + opponent_bar_width team_pct =
      LEGEND_TOTAL_WIDTH ∧
    team_bar_width 51 = 306 / 100 ∧ opponent_bar_width 51 = 294 / 100 := by
  refine ⟨?_, ?_, ?_⟩
  · rw [opponent_bar_width]; ring
  · rw [team_bar_width, LEGEND_TOTAL_WIDTH]; norm_num
  · rw [opponent_bar_width, team_bar_width, LEGEND_TOTAL_WIDTH]; norm_num

theorem legend_widths_sum_witness :
    ((0 : ℤ) ≤ 51 ∧ (51 : ℤ) ≤ 100) ∧
    (team_bar_width 51 + opponent_bar_width 51 = LEGEND_TOTAL_WIDTH ∧
      team_bar_width 51 = 306 / 100 ∧ opponent_bar_width 51 = 294 / 100) :=
  ⟨by decide, legend_widths_sum 51 (by decide) (by decide)⟩

/-- The per-segment centered bar labels of lines 285-301:
`str(int(v)) if v > 0 else ""` over a count array. -/
def barSegmentLabels (counts : List ℕ) : List String :=
  counts.map (fun v => if 0 < v then toString v else "")

/-- The labels on the "won" segments (lines 286-293). -/
def won_bar_labels (players : List PlayerRec) : List String :=
  barSegmentLabels (players.map (fun p => p.won))

/-- The labels on the "lost" segments (lines 294-301). -/
def lost_bar_labels (players : List PlayerRec) : List String :=
  barSegmentLabels (players.map (fun p => p.lost))

/-- `barSegmentLabels` read off at a valid index. -/
theorem barSegmentLabels_getD (counts : List ℕ) (i : ℕ)
    (h : i < counts.length) :
    (barSegmentLabels counts).getD i "" =
      (if 0 < counts.get ⟨i, h⟩ then toString (counts.get ⟨i, h⟩) else "") := by
  rw [barSegmentLabels, List.getD_eq_getElem?_getD, List.getElem?_map,
    List.getElem?_eq_getElem h]
  rfl

/-- C7: each bar segment's label is the empty string when the count is
zero, and the exact decimal string of the count when it is positive —
for both the "won" and the "lost" segment of every row. -/
theorem bar_label_suppression (players : List PlayerRec) (i : ℕ)
    (h : i < players.length) :
    (((players.get ⟨i, h⟩).won = 0 →
        (won_bar_labels players).getD i "" = "") ∧
      (0 < (players.get ⟨i, h⟩).won →
        (won_bar_labels players).getD i "" =
          toString (players.get ⟨i, h⟩).won)) ∧
    (((players.get ⟨i, h⟩).lost = 0 →
        (lost_bar_labels players).getD i "" = "") ∧
      (0 < (players.get ⟨i, h⟩).lost →
        (lost_bar_labels players).getD i "" =
          toString (players.get ⟨i, h⟩).lost)) := by
  have hlen : i < (players.map (fun p => p.won)).length := by
    rw [List.length_map]; exact h
  have hlen' : i < (players.map (fun p => p.lost)).length := by
    rw [List.length_map]; exact h
  have hwon : (players.map (fun p => p.won)).get ⟨i, hlen⟩ =
      (players.get ⟨i, h⟩).won := List.get_map _
  have hlost : (players.map (fun p => p.lost)).get ⟨i, hlen'⟩ =
      (players.get ⟨i, h⟩).lost := List.get_map _
  have hw := barSegmentLabels_getD (players.map (fun p => p.won)) i hlen
  have hl := barSegmentLabels_getD (players.map (fun p => p.lost)) i hlen'
  rw [hwon] at hw
  rw [hlost] at hl
  rw [won_bar_labels, lost_bar_labels]
  refine ⟨⟨?_, ?_⟩, ?_, ?_⟩
  · intro hc; rw [hw, hc]; rfl
  · intro hc; rw [hw, if_pos hc]
  · intro hc; rw [hl, hc]; rfl
  · intro hc; rw [hl, if_pos hc]

theorem bar_label_suppression_witness :
    0 < ([⟨"A", 90, 3, 0⟩, ⟨"B", 80, 0, 2⟩] : List PlayerRec).length ∧
    (won_bar_labels [⟨"A", 90, 3, 0⟩, ⟨"B", 80, 0, 2⟩]).getD 0 "" = "3" ∧
    (lost_bar_labels [⟨"A", 90, 3, 0⟩, ⟨"B", 80, 0, 2⟩]).getD 0 "" = "" := by
  have h := bar_label_suppression [⟨"A", 90, 3, 0⟩, ⟨"B", 80, 0, 2⟩] 0
    (by decide)
  refine ⟨by decide, ?_, ?_⟩
  · have := h.1.2 (by decide)
    rw [this]
    decide
  · exact h.2.1 (by decide)

/-! ## Team-level duel summary (`fetch_team_percentages`, lines 134-182) -/

/-- One labeled team-statistics row of `scrape_team_match_stats`: the
fields the script reads.  The `home`/`away` columns carry the percentage
strings of the "Duels" row; `homeValue`/`awayValue` carry the numeric
counts of the "Ground duels"/"Aerial duels" rows. -/
structure TeamStatRow where
  period : String
  name : String
  home : String
  away : String
  homeValue : ℤ
  awayValue : ℤ
deriving DecidableEq, Repr

/-- The dict returned by `fetch_team_percentages` (lines 174-182). -/
structure TeamStats where
  team_pct : ℤ
  opponent_pct : ℤ
  team_name : String
  opponent_name : String
  team_won : ℤ
  opponent_won : ℤ
  total : ℤ
deriving DecidableEq, Repr

/-- `s.replace("%", "")`: drop every percent character. -/
def stripPercent (s : String) : String :=
  String.mk (s.data.filter (fun c => c ≠ '%'))

/-- The value of a decimal digit character. -/
def digitVal (c : Char) : Option ℕ :=
  if c.isDigit then some (c.toNat - 48) else none

/-- A non-empty all-digit character list read as a decimal natural. -/
def digitsToNat (cs : List Char) : Option ℕ :=
  if cs = [] then none
  else
    cs.foldl
      (fun acc c =>
        match acc, digitVal c with
        | some a, some d => some (a * 10 + d)
        | _, _ => none)
      (some 0)

/-- Python `int(...)` on a string, as applied to the percentage values:
an optional sign followed by one or more decimal digits (anything else
raises `ValueError`). -/
def pyInt (s : String) : Option ℤ :=
  match s.data with
  | '-' :: rest => (digitsToNat rest).map (fun n => -(n : ℤ))
  | '+' :: rest => (digitsToNat rest).map (fun n => (n : ℤ))
  | cs => (digitsToNat cs).map (fun n => (n : ℤ))

/-- `fetch_team_percentages` (lines 134-182).  `.iloc[0]` on an empty
selection raises, and `int(...)` on an unparseable percentage string
raises; both are `none`.  The home/away side of the requested team is
decided by `teams[0] == team_name` (line 155) — there is no guard for a
team name matching neither entry. -/
def fetch_team_percentages (game : List TeamStatRow)
    (teams : String × String) (team_name : String) : Option TeamStats := do
  let g := game.filter (fun r => r.period == "ALL")
  let duel_row ← (g.filter (fun r => r.name == "Duels")).head?
  let ground_row ← (g.filter (fun r => r.name == "Ground duels")).head?
  let aerial_row ← (g.filter (fun r => r.name == "Aerial duels")).head?
  let is_home := teams.1 == team_name
  let opponent_name := if is_home then teams.2 else teams.1
  let team_pct_str := if is_home then duel_row.home else duel_row.away
  let opponent_pct_str := if is_home then duel_row.away else duel_row.home
  let team_pct ← pyInt (stripPercent team_pct_str)
  let opponent_pct ← pyInt (stripPercent opponent_pct_str)
  let team_won := if is_home then ground_row.homeValue + aerial_row.homeValue
    else ground_row.awayValue + aerial_row.awayValue
  let opponent_won := if is_home then ground_row.awayValue + aerial_row.awayValue
    else ground_row.homeValue + aerial_row.homeValue
  some ⟨team_pct, opponent_pct, team_name, opponent_name, team_won,
    opponent_won, team_won + opponent_won⟩

/-- A well-formed team-statistics selection on which every lookup and
parse succeeds. -/
def demoGame : List TeamStatRow :=
  [⟨"ALL", "Duels", "51%", "49%", 0, 0⟩,
   ⟨"ALL", "Ground duels", "", "", 20, 18⟩,
   ⟨"ALL", "Aerial duels", "", "", 10, 9⟩]

/-- C8 (code behavior at the failing input): with team names
`("Galatasaray", "Fenerbahçe")` and the requested team `"Trabzonspor"`
matching neither, `fetch_team_percentages` does NOT fail: it silently
treats the requested team as the away side and returns a full summary
whose opponent is the home team and whose percentages are read from the
away column. -/
theorem unknown_team_returns_summary :
    fetch_team_percentages demoGame ("Galatasaray", "Fenerbahçe")
        "Trabzonspor" =
      some ⟨49, 51, "Trabzonspor", "Galatasaray", 27, 30, 57⟩ := by
  decide

/-! ## Legend labels (lines 397-410) -/

/-- The label of the team segment (line 399):
`f"%{team_pct} {team_name} - ({team_won})"`. -/
def legend_team_label (ts : TeamStats) : String :=
  "%" ++ toString ts.team_pct ++ " " ++ ts.team_name ++ " - (" ++
    toString ts.team_won ++ ")"

/-- The label of the opponent segment (line 406):
`f"%{opponent_pct} {opponent_name} - ({opponent_won})"`. -/
def legend_opponent_label (ts : TeamStats) : String :=
  "%" ++ toString ts.opponent_pct ++ " " ++ ts.opponent_name ++ " - (" ++
    toString ts.opponent_won ++ ")"

/-- The format the claim asserts: the percentage number followed by a
percent sign, then the name, then the wins count in parentheses. -/
def claimedLegendFormat (pct : ℤ) (name : String) (wins : ℤ) : String :=
  toString pct ++ "% " ++ name ++ " - (" ++ toString wins ++ ")"

/-- The amended format: a percent sign followed by the percentage
number, then the name, then the wins count in parentheses. -/
def amendedLegendFormat (pct : ℤ) (name : String) (wins : ℤ) : String :=
  "%" ++ toString pct ++ " " ++ name ++ " - (" ++ toString wins ++ ")"

/-- C9 counterexample: at `pct = 51`, `name = "Galatasaray"`,
`wins = 30`, the code produces `"%51 Galatasaray - (30)"`, not the
claimed `"51% Galatasaray - (30)"`. -/
theorem legend_label_counterexample :
    legend_team_label ⟨51, 49, "Galatasaray", "Fenerbahçe", 30, 27, 57⟩ ≠
      claimedLegendFormat 51 "Galatasaray" 30 := by
  decide

/-- C9 amended: both legend segment labels follow the format
`"%{pct} {name} - ({winsCount})"` — percent sign first, then the
percentage number, the side's name, and the side's wins count in
parentheses. -/
theorem legend_labels_amended_format (ts : TeamStats) :
    legend_team_label ts =
      amendedLegendFormat ts.team_pct ts.team_name ts.team_won ∧
    legend_opponent_label ts =
      amendedLegendFormat ts.opponent_pct ts.opponent_name ts.opponent_won :=
  ⟨rfl, rfl⟩

/-! ## Match metadata (`fetch_match_info`, lines 65-84) -/

/-- The fields of `get_match_dict` that the script reads. -/
structure MatchDict where
  homeTeamName : String
  awayTeamName : String
  homeScoreCurrent : ℤ
  awayScoreCurrent : ℤ
  tournamentName : String
  startTimestamp : ℤ
deriving DecidableEq, Repr

/-- The dict returned by `fetch_match_info` (lines 76-84). -/
structure MatchInfo where
  home_team : String
  away_team : String
  home_score : ℤ
  away_score : ℤ
  tournament : String
  season : String
  date : String
deriving DecidableEq, Repr

/-- `TURKISH_MONTHS` (lines 36-49): a month-number lookup; a key outside
the table is a hard `KeyError`. -/
def TURKISH_MONTHS : ℕ → Option String
  | 1 => some "Ocak"
  | 2 => some "Şubat"
  | 3 => some "Mart"
  | 4 => some "Nisan"
  | 5 => some "Mayıs"
  | 6 => some "Haziran"
  | 7 => some "Temmuz"
  | 8 => some "Ağustos"
  | 9 => some "Eylül"
  | 10 => some "Ekim"
  | 11 => some "Kasım"
  | 12 => some "Aralık"
  | _ => none

/-- `TURKISH_TOURNAMENTS` (lines 52-57), used with `.get(key, key)`. -/
def TURKISH_TOURNAMENTS (s : String) : Option String :=
  if s = "UEFA Champions League" then some "Şampiyonlar Ligi"
  else if s = "Süper Lig" then some "Süper Lig"
  else if s = "Turkish Cup" then some "Ziraat Türkiye Kupası"
  else if s = "Turkish Super Cup" then some "Süper Kupa"
  else none

/-- `fetch_match_info` (lines 65-84).  `datetime.fromtimestamp` is
Python standard-library code outside the repository; it is abstracted as
a `dateOf` function from the timestamp to a `(day, month, year)`
triple. -/
def fetch_match_info (dateOf : ℤ → ℕ × ℕ × ℕ) (md : MatchDict) :
    Option MatchInfo :=
  let d := dateOf md.startTimestamp
  (TURKISH_MONTHS d.2.1).map fun monthName =>
    { home_team := md.homeTeamName
      away_team := md.awayTeamName
      home_score := md.homeScoreCurrent
      away_score := md.awayScoreCurrent
      tournament := (TURKISH_TOURNAMENTS md.tournamentName).getD
        md.tournamentName
      season := "2025/2026"
      date := toString d.1 ++ " " ++ monthName ++ " " ++ toString d.2.2 }

/-- C10: whatever the provider's match data and whatever date the
timestamp maps to, any summary `fetch_match_info` returns carries the
hard-coded season label `"2025/2026"`. -/
theorem season_is_hardcoded (dateOf : ℤ → ℕ × ℕ × ℕ) (md : MatchDict)
    (info : MatchInfo) (h : fetch_match_info dateOf md = some info) :
    info.season = "2025/2026" := by
  rw [fetch_match_info, Option.map_eq_some'] at h
  obtain ⟨m, _, rfl⟩ := h
  rfl

/-- A concrete match dict for the witness. -/
def demoMatch : MatchDict :=
  ⟨"Galatasaray", "Fenerbahçe", 2, 1, "Süper Lig", 1757000000⟩

theorem season_is_hardcoded_witness :
    fetch_match_info (fun _ => (4, 9, 2025)) demoMatch =
      some ⟨"Galatasaray", "Fenerbahçe", 2, 1, "Süper Lig", "2025/2026",
        "4 Eylül 2025"⟩ ∧
    (⟨"Galatasaray", "Fenerbahçe", 2, 1, "Süper Lig", "2025/2026",
        "4 Eylül 2025"⟩ : MatchInfo).season = "2025/2026" :=
  ⟨rfl, season_is_hardcoded (fun _ => (4, 9, 2025)) demoMatch _ rfl⟩
